import Mathlib

/-!
Shallow embedding of the Mini Cloud browser client (React frontend).

The embedding models the current Dashboard component (the i18n version),
the Login page's password validator, and the shared formatSize helper.
JavaScript strings are modelled as `List Char` (so that character-level
operations such as split/trim are structurally recursive and executable);
JavaScript `null`/`undefined` is modelled with `Option`; backend ids are
modelled as natural numbers (only equality on them matters); each network
call is modelled as an emitted `Request` value; an `async` handler is split
into its synchronous prefix (the code before the first `await`) and its
continuation (the code after), with the request outcome passed in as a
boolean; toast notifications are modelled as emitted `Toast` values.
-/

/-- Backend object id. Only id equality is ever inspected by the client. -/
abbrev NodeId := Nat

/-- The `type` tag attached to a dragged or targeted item (`'file'` / `'folder'`). -/
inductive ItemKind where
  | file
  | folder
deriving DecidableEq

/-- An item carried through drag-and-drop or the move dialog:
the source spreads the node and adds a `type` tag (`{ ...item, type }`). -/
structure DraggedItem where
  id : NodeId
  type : ItemKind
deriving DecidableEq

/-- Addressing mode of a file upload request: the multipart form carries
`folder_path`, or `folder_id`, or neither (account root). -/
inductive UploadAddr where
  | root
  | folderId (id : NodeId)
  | folderPath (path : List Char)
deriving DecidableEq

/-- One backend HTTP request issued by the Dashboard handlers. -/
inductive Request where
  | filesMove (file_id : NodeId) (target_folder_id : Option NodeId)
  | foldersMove (folder_id : NodeId) (target_parent_id : Option NodeId)
  | filesUpload (name : List Char) (addr : UploadAddr)
  | foldersCreate (name : List Char) (parent_id : Option NodeId)
  | filesList
  | foldersTree
  | userStats
deriving DecidableEq

/-- Whether a request is one of the two move endpoints
(`POST /files/move` or `POST /folders/move`). -/
def Request.isMove : Request → Bool
  | Request.filesMove _ _ => true
  | Request.foldersMove _ _ => true
  | _ => false

/-- A toast notification shown by a handler. The upload handler reports
aggregate counts; the other handlers report fixed messages. -/
inductive Toast where
  | fileUploadedAgg (count : Nat)
  | fileUploadFailedAgg (count : Nat)
  | folderCreatedOk
  | folderCreateFailed
  | movedOk
  | moveFailed
deriving DecidableEq

/-- Account-wide stats from `GET /user/stats` (Dashboard initial state
`{ storage_used: 0, file_count: 0, folder_count: 0 }`). -/
structure Stats where
  storage_used : Nat
  file_count : Nat
  folder_count : Nat
deriving DecidableEq

/-- The directory view model fields of the Dashboard component:
current folder, its children, the breadcrumb chain and the stats. -/
structure DirectoryView where
  currentFolder : Option NodeId
  files : List NodeId
  folders : List NodeId
  breadcrumb : List NodeId
  stats : Stats
deriving DecidableEq

/-- The drag-and-drop controller fields: `draggedItem` and `dropTarget`. -/
structure DragState where
  draggedItem : Option DraggedItem
  dropTarget : Option NodeId
deriving DecidableEq

/-- The move dialog fields: `showMoveDialog`, `moveTarget`, `moveDestination`. -/
structure MoveDialogState where
  showMoveDialog : Bool
  moveTarget : Option DraggedItem
  moveDestination : Option NodeId
deriving DecidableEq

/-- The Dashboard component state relevant to the claims. -/
structure Dashboard where
  dir : DirectoryView
  drag : DragState
  move : MoveDialogState
deriving DecidableEq

/-- Result of running (a phase of) a handler: the updated component state,
the backend requests issued, and the toasts shown, in program order. -/
structure Step where
  state : Dashboard
  requests : List Request
  toasts : List Toast
deriving DecidableEq

/-- Handler `handleDragStart(item, type)` (Dashboard):
`setDraggedItem({ ...item, type })`. Purely local, no request. -/
def handleDragStart (s : Dashboard) (item : DraggedItem) : Step :=
  ⟨{ s with drag := { s.drag with draggedItem := some item } }, [], []⟩

/-- Handler `handleDragEnd()` (Dashboard):
`setDraggedItem(null); setDropTarget(null)`, unconditionally. -/
def handleDragEnd (s : Dashboard) : Step :=
  ⟨{ s with drag := ⟨none, none⟩ }, [], []⟩

/-- The move request built from a dragged/targeted item and a destination:
`POST /files/move { file_id, target_folder_id }` when `type === 'file'`,
else `POST /folders/move { folder_id, target_parent_id }`. -/
def moveRequestFor (item : DraggedItem) (dest : Option NodeId) : Request :=
  match item.type with
  | ItemKind.file => Request.filesMove item.id dest
  | ItemKind.folder => Request.foldersMove item.id dest

/-- Synchronous prefix of `handleDropOnFolder(e, targetFolder)` (the code up
to the first `await`): `setDropTarget(null)`; early return when there is no
dragged item or `draggedItem.id === targetFolder.id`; otherwise the move
request for the dragged item with destination `targetFolder.id` is issued.
Note that `setDraggedItem(null)` is NOT part of this prefix: it sits after
the `await`ed request in the source. -/
def handleDropOnFolderSync (s : Dashboard) (targetFolder : NodeId) : Step :=
  let s1 : Dashboard := { s with drag := { s.drag with dropTarget := none } }
  match s1.drag.draggedItem with
  | none => ⟨s1, [], []⟩
  | some item =>
      if item.id = targetFolder then ⟨s1, [], []⟩
      else ⟨s1, [moveRequestFor item (some targetFolder)], []⟩

/-- Continuation of `handleDropOnFolder` run when the move request settles:
on success a toast plus `loadFiles(); loadFolders()`; on failure an error
toast; in both cases `setDraggedItem(null)` runs afterwards. -/
def handleDropOnFolderCont (s : Dashboard) (success : Bool) : Step :=
  if success then
    ⟨{ s with drag := { s.drag with draggedItem := none } },
      [Request.filesList, Request.foldersTree], [Toast.movedOk]⟩
  else
    ⟨{ s with drag := { s.drag with draggedItem := none } }, [], [Toast.moveFailed]⟩

/-- Whole run of `handleDropOnFolder`: the synchronous prefix followed, when
a move request was issued, by the continuation with the request's outcome. -/
def handleDropOnFolder (s : Dashboard) (targetFolder : NodeId) (success : Bool) : Step :=
  let sync := handleDropOnFolderSync s targetFolder
  match sync.requests with
  | [] => sync
  | _ =>
      let cont := handleDropOnFolderCont sync.state success
      ⟨cont.state, sync.requests ++ cont.requests, sync.toasts ++ cont.toasts⟩

/-- Synchronous prefix of `handleDropOnRoot(e)`: `setDropTarget(null)`;
early return when there is no dragged item; otherwise the move request for
the dragged item with destination `null` (account root) is issued. -/
def handleDropOnRootSync (s : Dashboard) : Step :=
  let s1 : Dashboard := { s with drag := { s.drag with dropTarget := none } }
  match s1.drag.draggedItem with
  | none => ⟨s1, [], []⟩
  | some item => ⟨s1, [moveRequestFor item none], []⟩

/-- Continuation of `handleDropOnRoot` run when the move request settles;
same shape as the folder-drop continuation. -/
def handleDropOnRootCont (s : Dashboard) (success : Bool) : Step :=
  if success then
    ⟨{ s with drag := { s.drag with draggedItem := none } },
      [Request.filesList, Request.foldersTree], [Toast.movedOk]⟩
  else
    ⟨{ s with drag := { s.drag with draggedItem := none } }, [], [Toast.moveFailed]⟩

/-- Whole run of `handleDropOnRoot`. -/
def handleDropOnRoot (s : Dashboard) (success : Bool) : Step :=
  let sync := handleDropOnRootSync s
  match sync.requests with
  | [] => sync
  | _ =>
      let cont := handleDropOnRootCont sync.state success
      ⟨cont.state, sync.requests ++ cont.requests, sync.toasts ++ cont.toasts⟩

/-- Handler `handleMove()` (move dialog confirm button): early return when
`moveTarget` is null; otherwise the move request for `moveTarget` with
destination `moveDestination` is issued — with NO id-equality check; on
success the dialog state is cleared and `loadFiles(); loadFolders()` run. -/
def handleMove (s : Dashboard) (success : Bool) : Step :=
  match s.move.moveTarget with
  | none => ⟨s, [], []⟩
  | some target =>
      let req := moveRequestFor target s.move.moveDestination
      if success then
        ⟨{ s with move := ⟨false, none, none⟩ },
          [req, Request.filesList, Request.foldersTree], [Toast.movedOk]⟩
      else
        ⟨s, [req], [Toast.moveFailed]⟩

/-- The `disabled` predicate of a destination button in the move dialog:
`disabled={moveTarget?.id === folder.id}`. -/
def moveDestinationDisabled (m : MoveDialogState) (folderId : NodeId) : Bool :=
  match m.moveTarget with
  | some t => t.id = folderId
  | none => false

/-- A user interaction with the move dialog, as wired in the Dashboard
render: opening the dialog for an item (`setMoveTarget({...item, type});
setShowMoveDialog(true)` — `moveDestination` is NOT reset), clicking a
destination button (no-op when the button is disabled), closing the dialog
(`onOpenChange` only toggles `showMoveDialog`), and the confirm button
(which invokes `handleMove`). -/
inductive DialogEvent where
  | openMoveDialog (item : DraggedItem)
  | selectMoveDestination (dest : Option NodeId)
  | closeMoveDialog
  | confirmMove (success : Bool)

/-- Effect of one move dialog interaction on the Dashboard state. -/
def applyDialogEvent (s : Dashboard) (e : DialogEvent) : Step :=
  match e with
  | DialogEvent.openMoveDialog item =>
      ⟨{ s with move := { s.move with moveTarget := some item, showMoveDialog := true } }, [], []⟩
  | DialogEvent.selectMoveDestination dest =>
      match dest with
      | none => ⟨{ s with move := { s.move with moveDestination := none } }, [], []⟩
      | some fid =>
          if moveDestinationDisabled s.move fid then ⟨s, [], []⟩
          else ⟨{ s with move := { s.move with moveDestination := some fid } }, [], []⟩
  | DialogEvent.closeMoveDialog =>
      ⟨{ s with move := { s.move with showMoveDialog := false } }, [], []⟩
  | DialogEvent.confirmMove success => handleMove s success

/-- Run of a sequence of move dialog interactions, collecting all issued
requests and toasts in order. -/
def runDialogEvents (s : Dashboard) : List DialogEvent → Step
  | [] => ⟨s, [], []⟩
  | e :: es =>
      let st := applyDialogEvent s e
      let rest := runDialogEvents st.state es
      ⟨rest.state, st.requests ++ rest.requests, st.toasts ++ rest.toasts⟩

/-- A browser `File` object as used by the upload handlers: its `name` and
its `webkitRelativePath` (empty for plain file-input uploads). -/
structure JsFile where
  name : List Char
  webkitRelativePath : List Char
deriving DecidableEq

/-- Addressing chosen by `handleFileUpload` for the whole batch:
`if (folderPath) { folder_path } else if (currentFolder) { folder_id }`
— with JavaScript truthiness, so an empty `folderPath` string falls
through to the `currentFolder` test. -/
def uploadAddr (folderPath : Option (List Char)) (currentFolder : Option NodeId) : UploadAddr :=
  match folderPath with
  | some p =>
      if p = [] then
        match currentFolder with
        | some c => UploadAddr.folderId c
        | none => UploadAddr.root
      else UploadAddr.folderPath p
  | none =>
      match currentFolder with
      | some c => UploadAddr.folderId c
      | none => UploadAddr.root

/-- The per-file loop of `handleFileUpload`: each file gets its own
`POST /files/upload` inside its own try/catch, so one file's outcome never
affects the other files' requests; `successCount`/`errorCount` accumulate
the outcomes. Each file is paired with the boolean outcome of its request.
Returns (requests in order, successCount, errorCount). -/
def uploadLoop (addr : UploadAddr) : List (JsFile × Bool) → List Request × Nat × Nat
  | [] => ([], 0, 0)
  | (f, ok) :: rest =>
      let r := uploadLoop addr rest
      (Request.filesUpload f.name addr :: r.1,
        (if ok then r.2.1 + 1 else r.2.1),
        (if ok then r.2.2 else r.2.2 + 1))

/-- Full result of a `handleFileUpload` run. -/
structure UploadRun where
  requests : List Request
  successCount : Nat
  errorCount : Nat
  toasts : List Toast
  reloads : List Request
deriving DecidableEq

/-- Handler `handleFileUpload(files, folderPath = null)` (Dashboard, the
aggregate-count version): early return on an empty batch; one upload
request per file with the batch's addressing; afterwards one aggregate
success toast when `successCount > 0` and one aggregate error toast when
`errorCount > 0` (never a per-file dialog); finally
`loadFiles(); loadFolders(); loadStats()` regardless of partial failure. -/
def handleFileUpload (currentFolder : Option NodeId) (folderPath : Option (List Char))
    (files : List (JsFile × Bool)) : UploadRun :=
  if files.isEmpty then ⟨[], 0, 0, [], []⟩
  else
    let r := uploadLoop (uploadAddr folderPath currentFolder) files
    ⟨r.1, r.2.1, r.2.2,
      (if 0 < r.2.1 then [Toast.fileUploadedAgg r.2.1] else [])
        ++ (if 0 < r.2.2 then [Toast.fileUploadFailedAgg r.2.2] else []),
      [Request.filesList, Request.foldersTree, Request.userStats]⟩

/-- The string split `relativePath.split('/')` on a character list. -/
def splitOnSlash : List Char → List (List Char)
  | [] => [[]]
  | c :: rest =>
      let r := splitOnSlash rest
      if c = '/' then [] :: r
      else
        match r with
        | [] => [[c]]
        | h :: t => (c :: h) :: t

/-- The string join `parts.join('/')` on character lists. -/
def joinSlash : List (List Char) → List Char
  | [] => []
  | [p] => p
  | p :: ps => p ++ '/' :: joinSlash ps

/-- Folder path derived from one file's `webkitRelativePath` in
`handleFolderUpload`: `relativePath.split('/').slice(0, -1).join('/')`. -/
def folderPathOf (relativePath : List Char) : List Char :=
  joinSlash (splitOnSlash relativePath).dropLast

/-- Insertion into the `filesByPath` object: JavaScript objects with string
keys enumerate in insertion order, and each file is pushed to the end of
its group's array. -/
def groupInsert (groups : List (List Char × List (JsFile × Bool))) (key : List Char)
    (f : JsFile × Bool) : List (List Char × List (JsFile × Bool)) :=
  match groups with
  | [] => [(key, [f])]
  | (k, fs) :: rest =>
      if k = key then (k, fs ++ [f]) :: rest
      else (k, fs) :: groupInsert rest key f

/-- The `filesByPath` grouping built by `handleFolderUpload`: files grouped
by the folder path derived from their `webkitRelativePath`. -/
def filesByPath (files : List (JsFile × Bool)) : List (List Char × List (JsFile × Bool)) :=
  files.foldl (fun gs f => groupInsert gs (folderPathOf f.1.webkitRelativePath) f) []

/-- Handler `handleFolderUpload(event)` (Dashboard): groups the selected
files by folder path, then awaits `handleFileUpload(pathFiles, folderPath)`
for each group in order. Returns each group's path with its upload run. -/
def handleFolderUpload (currentFolder : Option NodeId) (files : List (JsFile × Bool)) :
    List (List Char × UploadRun) :=
  (filesByPath files).map (fun g => (g.1, handleFileUpload currentFolder (some g.1) g.2))

/-- The root-area `onDrop` of the file manager card: when the drop carries
native OS files (`e.dataTransfer.files.length > 0`) it runs `handleDrop`
— which calls `handleFileUpload` on them (current folder addressing) —
otherwise it runs `handleDropOnRoot`. -/
def onDropFileManager (s : Dashboard) (osFiles : List (JsFile × Bool)) (success : Bool) : Step :=
  if 0 < osFiles.length then
    let run := handleFileUpload s.dir.currentFolder none osFiles
    ⟨s, run.requests ++ run.reloads, run.toasts⟩
  else handleDropOnRoot s success

/-- The whitespace predicate of JavaScript `String.prototype.trim`
(restricted to the code points that can realistically appear in a folder
name field: space, tab, line feed, carriage return, vertical tab, form
feed and no-break space). -/
def isJsSpace (c : Char) : Bool :=
  c == ' ' || c == '\t' || c == '\n' || c == '\r' ||
    c == '\x0b' || c == '\x0c' || c == '\u00A0'

/-- JavaScript `str.trim()` on a character list. -/
def jsTrim (s : List Char) : List Char :=
  ((s.dropWhile isJsSpace).reverse.dropWhile isJsSpace).reverse

/-- Handler `handleCreateFolder()` (Dashboard): early return (no request)
when `!newFolderName.trim()`, i.e. when the trimmed name is the empty
string; otherwise `POST /folders/create` with the UNtrimmed name and
`parent_id: currentFolder`; on success a toast, dialog reset and
`loadFolders(); loadStats()`. Returns (requests, toasts). -/
def handleCreateFolder (newFolderName : List Char) (currentFolder : Option NodeId)
    (success : Bool) : List Request × List Toast :=
  if jsTrim newFolderName = [] then ([], [])
  else
    let req := Request.foldersCreate newFolderName currentFolder
    if success then
      ([req, Request.foldersTree, Request.userStats], [Toast.folderCreatedOk])
    else ([req], [Toast.folderCreateFailed])

/-- The unit array of `formatSize`: `['B', 'KB', 'MB', 'GB']`. -/
inductive SizeUnit where
  | B
  | KB
  | MB
  | GB
deriving DecidableEq

/-- The four-element `sizes` array of `formatSize`. -/
def sizes : List SizeUnit := [SizeUnit.B, SizeUnit.KB, SizeUnit.MB, SizeUnit.GB]

/-- The index `i = Math.floor(Math.log(bytes) / Math.log(1024))` of
`formatSize`, for `bytes ≥ 1`, with the transcendental `Math.log` modelled
exactly: the floor of the base-1024 logarithm of a positive natural number
is `Nat.log 1024`. -/
def sizeIndex (bytes : Nat) : Nat := Nat.log 1024 bytes

/-- Rounding to two decimals as `Math.round(x * 100) / 100`
(`Math.round` is floor of `x + 1/2`, which is Mathlib's `round`). -/
def roundTo2 (q : ℚ) : ℚ := ((round (q * 100) : ℤ) : ℚ) / 100

/-- The number displayed by `formatSize` for a nonzero byte count:
`Math.round(bytes / Math.pow(k, i) * 100) / 100`. -/
def scaledValue (bytes : Nat) : ℚ := roundTo2 ((bytes : ℚ) / (1024 : ℚ) ^ sizeIndex bytes)

/-- Display produced by `formatSize`: either the literal `'0 B'` or a
rounded value concatenated with `sizes[i]` — where `sizes[i]` is `none`
(JavaScript `undefined`, rendered as the text `undefined`) when the index
is out of the array's bounds. -/
inductive SizeResult where
  | zeroB
  | display (value : ℚ) (unit : Option SizeUnit)
deriving DecidableEq

/-- Helper `formatSize(bytes)` (identical in the Dashboard and Profile
components): `'0 B'` for zero, otherwise the scaled, two-decimal-rounded
value paired with `sizes[i]`. -/
def formatSize (bytes : Nat) : SizeResult :=
  if bytes = 0 then SizeResult.zeroB
  else SizeResult.display (scaledValue bytes) (sizes.get? (sizeIndex bytes))

/-- The four password requirement ids of the Login page
(`validatePassword` and `PasswordStrengthIndicator` use the same tests):
`length`, `uppercase`, `lowercase`, `special`. -/
inductive PwRule where
  | length
  | uppercase
  | lowercase
  | special
deriving DecidableEq

/-- The regex `/[A-Z]/` character test (ASCII uppercase). -/
def isUpperAZ (c : Char) : Bool := 'A' ≤ c && c ≤ 'Z'

/-- The regex `/[a-z]/` character test (ASCII lowercase). -/
def isLowerAZ (c : Char) : Bool := 'a' ≤ c && c ≤ 'z'

/-- The special-character class of the Login page regex:
`[!@#$%^&*()_+\-=\[\]{}|;:,.<>?]`. -/
def isSpecialChar (c : Char) : Bool :=
  c == '!' || c == '@' || c == '#' || c == '$' || c == '%' || c == '^' ||
    c == '&' || c == '*' || c == '(' || c == ')' || c == '_' || c == '+' ||
    c == '-' || c == '=' || c == '[' || c == ']' || c == '\x7b' ||
    c == '\x7d' || c == '|' || c == ';' || c == ':' || c == ',' ||
    c == '.' || c == '<' || c == '>' || c == '?'

/-- Whether a password passes one requirement (`test` closures of
`PasswordStrengthIndicator`; `validatePassword` applies the same four
tests in the same order and pushes an error for each failing one). -/
def requirementTest (r : PwRule) (pwd : List Char) : Bool :=
  match r with
  | PwRule.length => 8 ≤ pwd.length
  | PwRule.uppercase => pwd.any isUpperAZ
  | PwRule.lowercase => pwd.any isLowerAZ
  | PwRule.special => pwd.any isSpecialChar

/-- `validatePassword(password)` (Login page): the list of failed rules, in
source order — length, uppercase, lowercase, special. -/
def validatePassword (pwd : List Char) : List PwRule :=
  (if pwd.length < 8 then [PwRule.length] else []) ++
    (if pwd.any isUpperAZ then [] else [PwRule.uppercase]) ++
    (if pwd.any isLowerAZ then [] else [PwRule.lowercase]) ++
    (if pwd.any isSpecialChar then [] else [PwRule.special])

/-- Character list of a string literal (test inputs are written as string
literals for readability). -/
def chars (s : String) : List Char := s.toList

/-- An empty directory view (the Dashboard's initial state). -/
def dirEmpty : DirectoryView := ⟨none, [], [], [], ⟨0, 0, 0⟩⟩

/-- A Dashboard state with nothing dragged and the move dialog closed. -/
def dashIdle : Dashboard := ⟨dirEmpty, ⟨none, none⟩, ⟨false, none, none⟩⟩

/-- The folder with id 1, as a draggable item. -/
def folderA : DraggedItem := ⟨1, ItemKind.folder⟩

/-- The folder with id 2, as a draggable item. -/
def folderB : DraggedItem := ⟨2, ItemKind.folder⟩

/-- A Dashboard state in the middle of dragging folder 1 over folder 2. -/
def dashDraggingA : Dashboard := ⟨dirEmpty, ⟨some folderA, some 2⟩, ⟨false, none, none⟩⟩

/-- A move dialog interaction sequence in which every destination click
respects the buttons' `disabled` guard: open the dialog for folder 1,
choose folder 2 as destination, close the dialog, reopen it for folder 2
(which does not reset `moveDestination`), and confirm. -/
def staleDialogEvents : List DialogEvent :=
  [DialogEvent.openMoveDialog folderA,
    DialogEvent.selectMoveDestination (some 2),
    DialogEvent.closeMoveDialog,
    DialogEvent.openMoveDialog folderB,
    DialogEvent.confirmMove true]

/-- The selected file `docs/a.txt` of the bulk folder upload scenario. -/
def docsA : JsFile := ⟨chars ("a.txt"), chars ("docs/a.txt")⟩

/-- The selected file `docs/sub/b.txt` of the bulk folder upload scenario. -/
def docsSubB : JsFile := ⟨chars ("b.txt"), chars ("docs/sub/b.txt")⟩

/-- A Dashboard state whose move dialog is open for folder 2 with a stale
destination that also points at folder 2. -/
def dashSelfMove : Dashboard := ⟨dirEmpty, ⟨none, none⟩, ⟨true, some folderB, some 2⟩⟩

/-- A Dashboard state dragging folder 1 while the move dialog also targets
folder 1 with destination folder 2 (used to witness the move reload
claims on both the dialog path and the drag-and-drop path at once). -/
def dashBoth : Dashboard := ⟨dirEmpty, ⟨some folderA, none⟩, ⟨true, some folderA, some 2⟩⟩

/-- Helper: dropping while a predicate holds of every element gives the
empty list. -/
theorem dropWhile_eq_nil_of_all {p : Char → Bool} :
    ∀ s : List Char, (∀ c ∈ s, p c = true) → s.dropWhile p = []
  | [], _ => rfl
  | c :: cs, h => by
      have hc : p c = true := h c (List.mem_cons_self c cs)
      simp only [List.dropWhile, hc]
      exact dropWhile_eq_nil_of_all cs (fun x hx => h x (List.mem_cons_of_mem c hx))

/-- Helper: trimming an all-whitespace string gives the empty string. -/
theorem jsTrim_eq_nil_of_all_space (s : List Char) (h : ∀ c ∈ s, isJsSpace c = true) :
    jsTrim s = [] := by
  unfold jsTrim
  rw [dropWhile_eq_nil_of_all s h]
  rfl

/-- C3: a folder name that is empty or consists only of whitespace makes
`handleCreateFolder` return without issuing any network request (and
without any toast). -/
theorem createFolder_whitespace_no_request (name : List Char) (cf : Option NodeId) (ok : Bool)
    (h : ∀ c ∈ name, isJsSpace c = true) :
    handleCreateFolder name cf ok = ([], []) := by
  unfold handleCreateFolder
  rw [jsTrim_eq_nil_of_all_space name h]
  rfl

/-- Witness for C3 at the two spec inputs: the empty name and three spaces. -/
theorem createFolder_whitespace_no_request_witness :
    handleCreateFolder (chars ("   ")) none true = ([], []) ∧
    handleCreateFolder (chars ("")) (some 5) false = ([], []) :=
  ⟨createFolder_whitespace_no_request (chars ("   ")) none true (by decide),
    createFolder_whitespace_no_request (chars ("")) (some 5) false (by decide)⟩

/-- C5 counterexample: deleting the special character of `"Abcdef1!"` gives
`"Abcdef1"`, which flips the special-character rule AND the length rule
(eight characters shrink to seven), so the other three rules' outcomes are
not all unchanged, contrary to the claim. -/
theorem pw_remove_special_also_flips_length :
    requirementTest PwRule.special (chars ("Abcdef1!")) = true ∧
    requirementTest PwRule.special (chars ("Abcdef1")) = false ∧
    requirementTest PwRule.length (chars ("Abcdef1!")) = true ∧
    requirementTest PwRule.length (chars ("Abcdef1")) = false := by decide

/-- Helper: a password passes validation exactly when all four rules hold. -/
theorem validatePassword_eq_nil_iff (pwd : List Char) :
    validatePassword pwd = [] ↔
      (8 ≤ pwd.length ∧ pwd.any isUpperAZ = true ∧ pwd.any isLowerAZ = true ∧
        pwd.any isSpecialChar = true) := by
  by_cases h1 : pwd.length < 8 <;> by_cases h2 : pwd.any isUpperAZ = true <;>
    by_cases h3 : pwd.any isLowerAZ = true <;> by_cases h4 : pwd.any isSpecialChar = true <;>
    simp [validatePassword, h1, h2, h3, h4] <;> omega

/-- C5 (amended): the validator applies exactly the four rules (length at
least 8, one uppercase, one lowercase, one special character); `"abc"`
fails length, uppercase and special; `"Abcdef1!"` passes all four;
REMOVING the special character gives `"Abcdef1"`, which flips the special
rule and the length rule while leaving uppercase and lowercase unchanged;
REPLACING the special character by a non-special one (`"Abcdef12"`) flips
exactly the special rule, leaving the other three unchanged. -/
theorem validatePassword_scenarios :
    (∀ pwd : List Char,
      validatePassword pwd = [] ↔
        (requirementTest PwRule.length pwd = true ∧
          requirementTest PwRule.uppercase pwd = true ∧
          requirementTest PwRule.lowercase pwd = true ∧
          requirementTest PwRule.special pwd = true)) ∧
    validatePassword (chars ("abc")) = [PwRule.length, PwRule.uppercase, PwRule.special] ∧
    validatePassword (chars ("Abcdef1!")) = [] ∧
    validatePassword (chars ("Abcdef1")) = [PwRule.length, PwRule.special] ∧
    requirementTest PwRule.uppercase (chars ("Abcdef1")) =
      requirementTest PwRule.uppercase (chars ("Abcdef1!")) ∧
    requirementTest PwRule.lowercase (chars ("Abcdef1")) =
      requirementTest PwRule.lowercase (chars ("Abcdef1!")) ∧
    validatePassword (chars ("Abcdef12")) = [PwRule.special] ∧
    requirementTest PwRule.length (chars ("Abcdef12")) =
      requirementTest PwRule.length (chars ("Abcdef1!")) ∧
    requirementTest PwRule.uppercase (chars ("Abcdef12")) =
      requirementTest PwRule.uppercase (chars ("Abcdef1!")) ∧
    requirementTest PwRule.lowercase (chars ("Abcdef12")) =
      requirementTest PwRule.lowercase (chars ("Abcdef1!")) := by
  refine ⟨?_, by decide, by decide, by decide, by decide, by decide, by decide, by decide,
    by decide, by decide⟩
  intro pwd
  rw [validatePassword_eq_nil_iff]
  simp [requirementTest]

/-- Helper: `sizes` has four elements, so every index above 3 reads
outside the array. -/
theorem sizes_get?_eq_none (n : Nat) (h : 3 < n) : sizes.get? n = none := by
  obtain ⟨m, rfl⟩ : ∃ m, n = m + 4 := ⟨n - 4, by omega⟩
  rfl

/-- C10: `formatSize` returns `'0 B'` for zero; for `1 ≤ b < 1024^4` the
unit index is in bounds (`i ≤ 3`, with `1024^i ≤ b < 1024^(i+1)`) and the
result is the two-decimal-rounded scaled value paired with `sizes[i]`;
for `b ≥ 1024^4` the computed index exceeds the four-element array's last
position and `sizes[i]` is `undefined`. -/
theorem formatSize_total_and_bounds :
    formatSize 0 = SizeResult.zeroB ∧
    (∀ b : Nat, 1 ≤ b → b < 1024 ^ 4 →
      sizeIndex b ≤ 3 ∧ 1024 ^ sizeIndex b ≤ b ∧ b < 1024 ^ (sizeIndex b + 1) ∧
      ∃ u, sizes.get? (sizeIndex b) = some u ∧
        formatSize b = SizeResult.display (scaledValue b) (some u)) ∧
    (∀ b : Nat, 1024 ^ 4 ≤ b → 3 < sizeIndex b ∧ sizes.get? (sizeIndex b) = none) := by
  refine ⟨rfl, ?_, ?_⟩
  · intro b hb1 hb2
    have hb0 : b ≠ 0 := by omega
    have hlt : sizeIndex b < 4 := Nat.log_lt_of_lt_pow hb0 hb2
    refine ⟨by omega, Nat.pow_log_le_self 1024 hb0,
      Nat.lt_pow_succ_log_self (by norm_num) b, ?_⟩
    have hfmt : formatSize b = SizeResult.display (scaledValue b) (sizes.get? (sizeIndex b)) := by
      simp [formatSize, hb0]
    have hcases : sizeIndex b = 0 ∨ sizeIndex b = 1 ∨ sizeIndex b = 2 ∨ sizeIndex b = 3 := by
      omega
    rcases hcases with h | h | h | h <;>
      exact ⟨_, by rw [h]; rfl, by rw [hfmt, h]; rfl⟩
  · intro b hb
    have hpos : (0 : Nat) < 1024 ^ 4 := by norm_num
    have hb0 : b ≠ 0 := by omega
    have h4 : 4 ≤ sizeIndex b := (Nat.pow_le_iff_le_log (by norm_num) hb0).mp hb
    exact ⟨by omega, sizes_get?_eq_none _ (by omega)⟩

/-- Witness for C10 at 1536 bytes (in bounds) and at 1024^4 bytes (out of
bounds). -/
theorem formatSize_total_and_bounds_witness :
    (sizeIndex 1536 ≤ 3 ∧ 1024 ^ sizeIndex 1536 ≤ 1536 ∧
      1536 < 1024 ^ (sizeIndex 1536 + 1) ∧
      ∃ u, sizes.get? (sizeIndex 1536) = some u ∧
        formatSize 1536 = SizeResult.display (scaledValue 1536) (some u)) ∧
    (3 < sizeIndex (1024 ^ 4) ∧ sizes.get? (sizeIndex (1024 ^ 4)) = none) :=
  ⟨formatSize_total_and_bounds.2.1 1536 (by norm_num) (by norm_num),
    formatSize_total_and_bounds.2.2 (1024 ^ 4) (le_refl _)⟩

/-- C7: a `dragstart` followed by a `dragend` with no drop emits no request
and leaves the directory state (files, folders, breadcrumb, stats)
unchanged, and `handleDragEnd` unconditionally clears both `draggedItem`
and `dropTarget`. -/
theorem dragCancel_clears_and_preserves :
    ∀ (s : Dashboard) (item : DraggedItem),
      (handleDragEnd (handleDragStart s item).state).state.drag = ⟨none, none⟩ ∧
      (handleDragEnd (handleDragStart s item).state).state.dir = s.dir ∧
      (handleDragStart s item).requests = [] ∧
      (handleDragEnd (handleDragStart s item).state).requests = [] ∧
      (∀ s' : Dashboard, (handleDragEnd s').state.drag = ⟨none, none⟩) :=
  fun _ _ => ⟨rfl, rfl, rfl, rfl, fun _ => rfl⟩

/-- C6 counterexample: dropping dragged folder 1 onto folder 2 issues the
move request in the synchronous part of the handler, but `draggedItem` is
still set when that synchronous part finishes — the clearing of
`draggedItem` is NOT synchronous (it runs after the awaited request). -/
theorem dropOnFolder_clear_not_synchronous :
    (handleDropOnFolderSync dashDraggingA 2).requests = [Request.foldersMove 1 (some 2)] ∧
    (handleDropOnFolderSync dashDraggingA 2).state.drag.draggedItem = some folderA := by
  exact ⟨rfl, rfl⟩

/-- C6 (amended): on a drop, `dropTargetFolderId` is cleared synchronously
at handler entry, while `draggedItem` is cleared only in the handler's
continuation after the move request settles — and there it is cleared
regardless of whether the request succeeded or failed (for both the
folder drop target and the root drop target). -/
theorem dropOnFolder_drag_state_clearing :
    (∀ (s : Dashboard) (t : NodeId),
      (handleDropOnFolderSync s t).state.drag.dropTarget = none) ∧
    (∀ (s : Dashboard) (ok : Bool),
      (handleDropOnFolderCont s ok).state.drag.draggedItem = none ∧
      (handleDropOnFolderCont s ok).state.drag.dropTarget = s.drag.dropTarget) ∧
    (∀ (s : Dashboard) (ok : Bool),
      (handleDropOnRootCont s ok).state.drag.draggedItem = none) := by
  refine ⟨?_, ?_, ?_⟩
  · intro s t
    cases h : s.drag.draggedItem <;> simp [handleDropOnFolderSync, h] <;> split <;> rfl
  · intro s ok
    cases ok <;> exact ⟨rfl, rfl⟩
  · intro s ok
    cases ok <;> rfl

/-- C1 counterexample: a move dialog interaction sequence in which every
destination click respects the buttons' `disabled` guard nevertheless
sends `POST /folders/move` with `folder_id = 2` and
`target_parent_id = 2` — folder 2 moved into itself. -/
theorem moveDialog_self_move_request_sent :
    (runDialogEvents dashIdle staleDialogEvents).requests =
      [Request.foldersMove 2 (some 2), Request.filesList, Request.foldersTree] := by
  decide

/-- C1 (amended): the id-equality self-move guard exists only on the
drag-and-drop path: `handleDropOnFolder` rejects a drop whose dragged item
id equals the target folder id with no request; the move dialog disables
the self-destination button; but `handleMove` itself performs no
id-equality check — whenever `moveDestination` equals the target's own id
(reachable via a stale `moveDestination`, cf. the counterexample), the
move request for the item into itself is sent. -/
theorem selfMove_guard_by_id_dragDrop_only :
    (∀ (s : Dashboard) (item : DraggedItem) (t : NodeId) (ok : Bool),
      s.drag.draggedItem = some item → item.id = t →
      (handleDropOnFolder s t ok).requests = [] ∧
      (handleDropOnFolder s t ok).state.drag.dropTarget = none) ∧
    (∀ (m : MoveDialogState) (item : DraggedItem),
      m.moveTarget = some item → moveDestinationDisabled m item.id = true) ∧
    (∀ (s : Dashboard) (item : DraggedItem) (ok : Bool),
      s.move.moveTarget = some item → s.move.moveDestination = some item.id →
      (handleMove s ok).requests.head? = some (moveRequestFor item (some item.id))) := by
  refine ⟨?_, ?_, ?_⟩
  · intro s item t ok h hid
    simp [handleDropOnFolder, handleDropOnFolderSync, h, hid]
  · intro m item h
    simp [moveDestinationDisabled, h]
  · intro s item ok h hd
    cases ok <;> simp [handleMove, h, hd]

/-- Witness for C1's amended theorem: a self-drop of folder 1 onto folder 1
sends nothing; the destination button for folder 2 is disabled while the
dialog targets folder 2; and `handleMove` on the stale self-destination
state sends the self-move request. -/
theorem selfMove_guard_by_id_dragDrop_only_witness :
    ((handleDropOnFolder dashDraggingA 1 true).requests = [] ∧
      (handleDropOnFolder dashDraggingA 1 true).state.drag.dropTarget = none) ∧
    moveDestinationDisabled (⟨true, some folderB, some 2⟩ : MoveDialogState) 2 = true ∧
    (handleMove dashSelfMove true).requests.head? =
      some (moveRequestFor folderB (some folderB.id)) :=
  ⟨selfMove_guard_by_id_dragDrop_only.1 dashDraggingA folderA 1 true rfl rfl,
    selfMove_guard_by_id_dragDrop_only.2.1 ⟨true, some folderB, some 2⟩ folderB rfl,
    selfMove_guard_by_id_dragDrop_only.2.2 dashSelfMove folderB true rfl rfl⟩

/-- Helper: the upload loop issues exactly one upload request per file of
the batch, in order, regardless of the per-file outcomes. -/
theorem uploadLoop_requests (addr : UploadAddr) :
    ∀ files : List (JsFile × Bool),
      (uploadLoop addr files).1 = files.map (fun fb => Request.filesUpload fb.1.name addr)
  | [] => rfl
  | ⟨f, ok⟩ :: rest => by
      simp [uploadLoop, uploadLoop_requests addr rest]

/-- Helper: the upload loop's success counter counts the succeeding files. -/
theorem uploadLoop_success (addr : UploadAddr) :
    ∀ files : List (JsFile × Bool),
      (uploadLoop addr files).2.1 = (files.filter (fun fb => fb.2)).length
  | [] => rfl
  | ⟨f, ok⟩ :: rest => by
      cases ok <;> simp [uploadLoop, List.filter_cons, uploadLoop_success addr rest]

/-- Helper: the upload loop's error counter counts the failing files. -/
theorem uploadLoop_error (addr : UploadAddr) :
    ∀ files : List (JsFile × Bool),
      (uploadLoop addr files).2.2 = (files.filter (fun fb => !fb.2)).length
  | [] => rfl
  | ⟨f, ok⟩ :: rest => by
      cases ok <;> simp [uploadLoop, List.filter_cons, uploadLoop_error addr rest]

/-- Helper: the files kept by a predicate and those kept by its negation
partition the batch. -/
theorem filter_length_split (p : JsFile × Bool → Bool) :
    ∀ l : List (JsFile × Bool),
      (l.filter p).length + (l.filter (fun x => !p x)).length = l.length
  | [] => rfl
  | x :: l => by
      by_cases h : p x = true <;>
        simp [List.filter_cons, h, Nat.add_right_comm, Nat.add_assoc] <;>
        rw [← filter_length_split p l] <;> omega

/-- C2: a batch upload issues one upload request per file (so the failure
of one file never suppresses another file's request), counts exactly the
M succeeding and N−M failing files, and reports only the two aggregate
toasts (never one dialog per file). -/
theorem fileUpload_batch_independent_and_aggregate :
    ∀ (cf : Option NodeId) (fp : Option (List Char)) (files : List (JsFile × Bool)),
      (handleFileUpload cf fp files).requests =
        files.map (fun fb => Request.filesUpload fb.1.name (uploadAddr fp cf)) ∧
      (handleFileUpload cf fp files).successCount = (files.filter (fun fb => fb.2)).length ∧
      (handleFileUpload cf fp files).errorCount =
        files.length - (files.filter (fun fb => fb.2)).length ∧
      (∀ t ∈ (handleFileUpload cf fp files).toasts,
        t = Toast.fileUploadedAgg (handleFileUpload cf fp files).successCount ∨
          t = Toast.fileUploadFailedAgg (handleFileUpload cf fp files).errorCount) ∧
      (handleFileUpload cf fp files).toasts.length ≤ 2 := by
  intro cf fp files
  by_cases hf : files.isEmpty
  · have hnil : files = [] := List.isEmpty_iff.mp hf
    subst hnil
    simp [handleFileUpload]
  · have hreq := uploadLoop_requests (uploadAddr fp cf) files
    have hs := uploadLoop_success (uploadAddr fp cf) files
    have he := uploadLoop_error (uploadAddr fp cf) files
    have hsum := filter_length_split (fun fb => fb.2) files
    have hrun : handleFileUpload cf fp files =
        ⟨(uploadLoop (uploadAddr fp cf) files).1,
          (uploadLoop (uploadAddr fp cf) files).2.1,
          (uploadLoop (uploadAddr fp cf) files).2.2,
          (if 0 < (uploadLoop (uploadAddr fp cf) files).2.1 then
              [Toast.fileUploadedAgg (uploadLoop (uploadAddr fp cf) files).2.1] else [])
            ++ (if 0 < (uploadLoop (uploadAddr fp cf) files).2.2 then
              [Toast.fileUploadFailedAgg (uploadLoop (uploadAddr fp cf) files).2.2] else []),
          [Request.filesList, Request.foldersTree, Request.userStats]⟩ := by
      simp [handleFileUpload, hf]
    refine ⟨?_, ?_, ?_, ?_, ?_⟩
    · rw [hrun]
      exact hreq
    · rw [hrun]
      exact hs
    · rw [hrun]
      simp only [he, hs]
      omega
    · rw [hrun]
      intro t ht
      by_cases h1 : 0 < (uploadLoop (uploadAddr fp cf) files).2.1 <;>
        by_cases h2 : 0 < (uploadLoop (uploadAddr fp cf) files).2.2 <;>
        simp [h1, h2] at ht ⊢ <;> tauto
    · rw [hrun]
      by_cases h1 : 0 < (uploadLoop (uploadAddr fp cf) files).2.1 <;>
        by_cases h2 : 0 < (uploadLoop (uploadAddr fp cf) files).2.2 <;>
        simp [h1, h2]

/-- C4: for the selected tree `docs/a.txt`, `docs/sub/b.txt`, the folder
upload handler derives exactly the two groups `"docs"` and `"docs/sub"`,
and uploads each file with its own group's `folder_path`. -/
theorem folderUpload_groups_scenario :
    filesByPath [(docsA, true), (docsSubB, true)] =
      [(chars ("docs"), [(docsA, true)]), (chars ("docs/sub"), [(docsSubB, true)])] ∧
    (handleFolderUpload none [(docsA, true), (docsSubB, true)]).map
        (fun g => (g.1, g.2.requests)) =
      [(chars ("docs"),
          [Request.filesUpload (chars ("a.txt")) (UploadAddr.folderPath (chars ("docs")))]),
        (chars ("docs/sub"),
          [Request.filesUpload (chars ("b.txt")) (UploadAddr.folderPath (chars ("docs/sub")))])] := by
  decide

/-- C8: a successful move — via the dialog's `handleMove` or via a
drag-and-drop `handleDropOnFolder` — reloads the file list and the folder
list but issues no stats request, and leaves the stats state unchanged. -/
theorem move_success_reloads_files_folders_not_stats :
    ∀ (s : Dashboard) (item : DraggedItem) (t : NodeId),
      s.move.moveTarget = some item →
      s.drag.draggedItem = some item →
      item.id ≠ t →
      (Request.filesList ∈ (handleMove s true).requests ∧
        Request.foldersTree ∈ (handleMove s true).requests ∧
        Request.userStats ∉ (handleMove s true).requests ∧
        (handleMove s true).state.dir.stats = s.dir.stats) ∧
      (Request.filesList ∈ (handleDropOnFolder s t true).requests ∧
        Request.foldersTree ∈ (handleDropOnFolder s t true).requests ∧
        Request.userStats ∉ (handleDropOnFolder s t true).requests ∧
        (handleDropOnFolder s t true).state.dir.stats = s.dir.stats) := by
  intro s item t hm hd hne
  constructor
  · cases h : item.type <;>
      simp [handleMove, hm, moveRequestFor, h]
  · cases h : item.type <;>
      simp [handleDropOnFolder, handleDropOnFolderSync, handleDropOnFolderCont, hd, hne,
        moveRequestFor, h]

/-- Witness for C8: folder 1 moved (dialog destination folder 2; dragged
onto folder 2) from the state `dashBoth`. -/
theorem move_success_reloads_files_folders_not_stats_witness :
    (Request.filesList ∈ (handleMove dashBoth true).requests ∧
      Request.foldersTree ∈ (handleMove dashBoth true).requests ∧
      Request.userStats ∉ (handleMove dashBoth true).requests ∧
      (handleMove dashBoth true).state.dir.stats = dashBoth.dir.stats) ∧
    (Request.filesList ∈ (handleDropOnFolder dashBoth 2 true).requests ∧
      Request.foldersTree ∈ (handleDropOnFolder dashBoth 2 true).requests ∧
      Request.userStats ∉ (handleDropOnFolder dashBoth 2 true).requests ∧
      (handleDropOnFolder dashBoth 2 true).state.dir.stats = dashBoth.dir.stats) :=
  move_success_reloads_files_folders_not_stats dashBoth folderA 2 rfl rfl (by decide)

/-- C9: a drop on the root file-manager area that carries native OS files
triggers only upload requests (one per file, plus the reloads — never a
move request, even while an internal item is being dragged); a drop that
carries no native files issues the move of the dragged item to the
account root (`target = null`). -/
theorem rootDrop_upload_precedence :
    ∀ (s : Dashboard) (osFiles : List (JsFile × Bool)) (ok : Bool) (item : DraggedItem),
      s.drag.draggedItem = some item →
      (0 < osFiles.length →
        (onDropFileManager s osFiles ok).requests =
          osFiles.map (fun fb => Request.filesUpload fb.1.name (uploadAddr none s.dir.currentFolder))
            ++ [Request.filesList, Request.foldersTree, Request.userStats] ∧
        (∀ r ∈ (onDropFileManager s osFiles ok).requests, r.isMove = false)) ∧
      (osFiles.length = 0 →
        (onDropFileManager s osFiles ok).requests.head? = some (moveRequestFor item none)) := by
  intro s osFiles ok item hd
  constructor
  · intro hlen
    have hne : ¬osFiles.isEmpty := by
      cases osFiles with
      | nil => simp at hlen
      | cons a l => simp [List.isEmpty]
    have hreq := uploadLoop_requests (uploadAddr none s.dir.currentFolder) osFiles
    have hstep : (onDropFileManager s osFiles ok).requests =
        osFiles.map (fun fb => Request.filesUpload fb.1.name (uploadAddr none s.dir.currentFolder))
          ++ [Request.filesList, Request.foldersTree, Request.userStats] := by
      simp [onDropFileManager, hlen, handleFileUpload, hne, hreq]
    refine ⟨hstep, ?_⟩
    intro r hr
    rw [hstep] at hr
    rcases List.mem_append.mp hr with h | h
    · rcases List.mem_map.mp h with ⟨fb, _, rfl⟩
      rfl
    · simp only [List.mem_cons, List.not_mem_nil, or_false] at h
      rcases h with rfl | rfl | rfl <;> rfl
  · intro hlen
    have hnil : osFiles = [] := List.length_eq_zero.mp hlen
    subst hnil
    cases hty : item.type <;> cases ok <;>
      simp [onDropFileManager, handleDropOnRoot, handleDropOnRootSync, handleDropOnRootCont,
        hd, moveRequestFor, hty]

/-- Witness for C9: from the dragging state, a root drop carrying
`docs/a.txt` uploads it (no move request), and a root drop carrying no
native files moves dragged folder 1 to the root. -/
theorem rootDrop_upload_precedence_witness :
    ((onDropFileManager dashDraggingA [(docsA, true)] true).requests =
        [(docsA, true)].map
          (fun fb => Request.filesUpload fb.1.name (uploadAddr none dashDraggingA.dir.currentFolder))
          ++ [Request.filesList, Request.foldersTree, Request.userStats] ∧
      (∀ r ∈ (onDropFileManager dashDraggingA [(docsA, true)] true).requests, r.isMove = false)) ∧
    (onDropFileManager dashDraggingA [] true).requests.head? =
      some (moveRequestFor folderA none) :=
  ⟨(rootDrop_upload_precedence dashDraggingA [(docsA, true)] true folderA rfl).1 (by decide),
    (rootDrop_upload_precedence dashDraggingA [] true folderA rfl).2 rfl⟩
